import Mathlib

/-!
Shallow embedding of `src/imitation/algorithms/pebble/entropy_reward.py`
(class `PebbleStateEntropyReward` and the phase enum `PebbleRewardPhase`).

Numeric arrays are modelled as flat lists of rationals together with a shape;
Python exceptions are modelled with an explicit error type and explicit state
passing (a method returns the raised-or-returned value together with the
instance after the call).  The external collaborators
`imitation.util.networks.RunningNorm` and
`imitation.util.util.compute_state_entropy` are not under `src/`; the first is
modelled from the spec (running mean / variance statistics with an
update-then-normalize forward pass), the second is a black-box parameter of
the embedding, as the spec itself treats it ("this core treats it as a
black-box dependency and only specifies the invocation contract").
-/

/-- Model of a numpy ndarray: a shape together with the flat (C-order) data. -/
structure NDArray where
  shape : List ℕ
  data : List ℚ
deriving DecidableEq

/-- Model of `array.reshape((-1, *obs_shape))`: the flat data is unchanged and
the leading dimension is recomputed from the total element count
(`entropy_reward.py` line 99). -/
def NDArray.reshapeRows (a : NDArray) (obsShape : List ℕ) : NDArray :=
  { shape := a.data.length / obsShape.prod :: obsShape, data := a.data }

/-- Python exceptions raised by this component. -/
inductive PyError where
  | valueError (msg : String)
  | typeError (msg : String)
  | assertionError
deriving DecidableEq

/-- The phase enum `PebbleRewardPhase` (`entropy_reward.py` lines 16-24). -/
inductive PebbleRewardPhase where
  | LEARNING_START
  | UNSUPERVISED_EXPLORATION
  | POLICY_AND_REWARD_LEARNING
deriving DecidableEq

/-- Position of a phase in the linear curriculum, used to state monotonicity. -/
def PebbleRewardPhase.idx : PebbleRewardPhase → ℕ
  | .LEARNING_START => 0
  | .UNSUPERVISED_EXPLORATION => 1
  | .POLICY_AND_REWARD_LEARNING => 2

/-- Mean of a list of rationals (division by zero yields 0 for the empty list,
which is never used behind the nonempty guard below). -/
def listMean (l : List ℚ) : ℚ := l.sum / l.length

/-- Population variance of a list of rationals. -/
def listVar (l : List ℚ) : ℚ :=
  (l.map (fun x => (x - listMean l) ^ 2)).sum / l.length

/-- Modelled from the spec: `imitation.util.networks.RunningNorm` is not under
`src/`.  Per the spec it "maintains running mean and variance (or an
equivalent incremental estimator) over a single scalar channel", plus an
epsilon to avoid division by zero.  The sample count makes the incremental
(pooled) update well defined. -/
structure RunningNorm where
  running_mean : ℚ
  running_var : ℚ
  count : ℕ
  eps : ℚ
deriving DecidableEq

/-- Modelled from the spec: a fresh `RunningNorm(1)` is "empty (zero
samples)"; the epsilon is the library default 1e-5. -/
def RunningNorm.empty : RunningNorm :=
  { running_mean := 0, running_var := 1, count := 0, eps := 1 / 100000 }

/-- Modelled from the spec: the incremental update of the running statistics
with a new batch, i.e. the standard pooled-mean / pooled-variance merge of the
statistics accumulated so far with the batch statistics (an empty batch leaves
the statistics unchanged). -/
def RunningNorm.update (s : RunningNorm) (batch : List ℚ) : RunningNorm :=
  if batch.length = 0 then s
  else
    let b : ℚ := (batch.length : ℚ)
    let bm := listMean batch
    let bv := listVar batch
    let tot : ℚ := (s.count : ℚ) + b
    let delta := bm - s.running_mean
    { running_mean := s.running_mean + delta * b / tot
      running_var :=
        (s.running_var * (s.count : ℚ) + bv * b +
          delta ^ 2 * (s.count : ℚ) * b / tot) / tot
      count := s.count + batch.length
      eps := s.eps }

/-- Modelled from the spec: normalization returns
`(batch - runningMean) / runningStd`, the standard deviation being the square
root of variance plus epsilon.  The square root is computed by the underlying
numeric library and enters the model as the black-box parameter `sqrtFn`. -/
def RunningNorm.normalize (sqrtFn : ℚ → ℚ) (s : RunningNorm) (batch : List ℚ) :
    List ℚ :=
  batch.map (fun x => (x - s.running_mean) / sqrtFn (s.running_var + s.eps))

/-- Modelled from the spec: `forward(batch)` "updates the running statistics
with batch's values, then returns (batch - runningMean) / runningStd" — a
mutating call, returned here as (output, statistics after the call). -/
def RunningNorm.forward (sqrtFn : ℚ → ℚ) (s : RunningNorm) (batch : List ℚ) :
    List ℚ × RunningNorm :=
  let s2 := s.update batch
  (RunningNorm.normalize sqrtFn s2 batch, s2)

/-- Statistics after n successive updates with the same batch. -/
def RunningNorm.iterUpdate (batch : List ℚ) : ℕ → RunningNorm → RunningNorm
  | 0, s => s
  | n + 1, s => RunningNorm.iterUpdate batch n (s.update batch)

/-- External collaborator: a replay buffer view exposing an observations
array. -/
structure ReplayBufferView where
  observations : NDArray
deriving DecidableEq

/-- External collaborator: the buffer wrapper handed to
`on_replay_buffer_initialized`, exposing a buffer view and an observation
shape. -/
structure ReplayBufferRewardWrapper where
  buffer_view : ReplayBufferView
  obs_shape : List ℕ
deriving DecidableEq

/-- External learned reward callable:
`(state, action, next_state, done) -> reward batch`. -/
abbrev RewardFn : Type := NDArray → NDArray → NDArray → NDArray → List ℚ

/-- Modelled from the spec: `imitation.util.util.compute_state_entropy` is not
under `src/`; the spec specifies only its invocation contract — inputs are the
query batch, the reference set and k, output is one entropy value per query
row — so the embedding is parametrized by it. -/
abbrev EntropyFn : Type := NDArray → NDArray → ℤ → List ℚ

/-- The instance state of `PebbleStateEntropyReward`: exactly the attributes
assigned in `__init__` (`entropy_reward.py` lines 49-62). -/
structure PebbleStateEntropyReward where
  trained_reward_fn : RewardFn
  nearest_neighbor_k : ℤ
  entropy_stats : RunningNorm
  state : PebbleRewardPhase
  replay_buffer_view : Option ReplayBufferView
  obs_shape : Option (List ℕ)

/-- `__init__(learned_reward_fn, nearest_neighbor_k)`: stores the learned
reward function and k, starts with empty statistics, phase LEARNING_START and
no replay buffer view (`entropy_reward.py` lines 49-62). -/
def PebbleStateEntropyReward.init (learned_reward_fn : RewardFn)
    (nearest_neighbor_k : ℤ) : PebbleStateEntropyReward :=
  { trained_reward_fn := learned_reward_fn
    nearest_neighbor_k := nearest_neighbor_k
    entropy_stats := RunningNorm.empty
    state := .LEARNING_START
    replay_buffer_view := none
    obs_shape := none }

/-- `__init__` with the default argument `nearest_neighbor_k = 5`. -/
def PebbleStateEntropyReward.initDefault
    (learned_reward_fn : RewardFn) : PebbleStateEntropyReward :=
  PebbleStateEntropyReward.init learned_reward_fn 5

/-- `set_replay_buffer(replay_buffer, obs_shape)`: stores both
(`entropy_reward.py` lines 67-69). -/
def PebbleStateEntropyReward.set_replay_buffer (r : PebbleStateEntropyReward)
    (replay_buffer : ReplayBufferView) (obs_shape : List ℕ) :
    PebbleStateEntropyReward :=
  { r with replay_buffer_view := some replay_buffer, obs_shape := some obs_shape }

/-- `on_replay_buffer_initialized(replay_buffer)`: calls `set_replay_buffer`
with the wrapper's buffer view and observation shape
(`entropy_reward.py` lines 64-65). -/
def PebbleStateEntropyReward.on_replay_buffer_initialized
    (r : PebbleStateEntropyReward) (replay_buffer : ReplayBufferRewardWrapper) :
    PebbleStateEntropyReward :=
  r.set_replay_buffer replay_buffer.buffer_view replay_buffer.obs_shape

/-- `unsupervised_exploration_start()`: asserts phase LEARNING_START, then
moves to UNSUPERVISED_EXPLORATION (`entropy_reward.py` lines 71-73).  A failed
assertion raises before any mutation, so the instance is returned unchanged. -/
def PebbleStateEntropyReward.unsupervised_exploration_start
    (r : PebbleStateEntropyReward) :
    Except PyError Unit × PebbleStateEntropyReward :=
  if r.state = .LEARNING_START then
    (.ok (), { r with state := .UNSUPERVISED_EXPLORATION })
  else
    (.error .assertionError, r)

/-- `unsupervised_exploration_finish()`: asserts phase
UNSUPERVISED_EXPLORATION, then moves to POLICY_AND_REWARD_LEARNING
(`entropy_reward.py` lines 75-77). -/
def PebbleStateEntropyReward.unsupervised_exploration_finish
    (r : PebbleStateEntropyReward) :
    Except PyError Unit × PebbleStateEntropyReward :=
  if r.state = .UNSUPERVISED_EXPLORATION then
    (.ok (), { r with state := .POLICY_AND_REWARD_LEARNING })
  else
    (.error .assertionError, r)

/-- `_entropy_reward(state)` (`entropy_reward.py` lines 91-107): raise a
ValueError if no replay buffer view is set; otherwise reshape the buffer's
observations to `(-1, *obs_shape)`, call the entropy estimator once on
(state, reshaped observations, nearest_neighbor_k), feed the entropies through
the running-norm forward pass (which updates `entropy_stats`), and return the
normalized values.  The unreachable-through-the-API corner where the view is
set but `obs_shape` is still None would raise a TypeError in Python when
unpacking `*None`. -/
def PebbleStateEntropyReward.entropy_reward (entFn : EntropyFn)
    (sqrtFn : ℚ → ℚ) (r : PebbleStateEntropyReward) (state : NDArray) :
    Except PyError (List ℚ) × PebbleStateEntropyReward :=
  match r.replay_buffer_view with
  | none =>
      (.error (.valueError
        "Replay buffer must be supplied before entropy reward can be used"), r)
  | some v =>
      match r.obs_shape with
      | none =>
          (.error (.typeError
            "Value after * must be an iterable, not NoneType"), r)
      | some sh =>
          let all_observations := v.observations.reshapeRows sh
          let entropies := entFn state all_observations r.nearest_neighbor_k
          let fwd := RunningNorm.forward sqrtFn r.entropy_stats entropies
          (.ok fwd.1, { r with entropy_stats := fwd.2 })

/-- `__call__(state, action, next_state, done)`
(`entropy_reward.py` lines 79-89): the entropy reward during
UNSUPERVISED_EXPLORATION, the learned reward function with all four arguments
forwarded unchanged in every other phase. -/
def PebbleStateEntropyReward.call (entFn : EntropyFn) (sqrtFn : ℚ → ℚ)
    (r : PebbleStateEntropyReward) (state action next_state dones : NDArray) :
    Except PyError (List ℚ) × PebbleStateEntropyReward :=
  if r.state = .UNSUPERVISED_EXPLORATION then
    r.entropy_reward entFn sqrtFn state
  else
    (.ok (r.trained_reward_fn state action next_state dones), r)

/-- The picklable state produced by `__getstate__`: a copy of `__dict__` with
`replay_buffer_view` deleted (`entropy_reward.py` lines 109-112). -/
structure PickledState where
  trained_reward_fn : RewardFn
  nearest_neighbor_k : ℤ
  entropy_stats : RunningNorm
  state : PebbleRewardPhase
  obs_shape : Option (List ℕ)

/-- `__getstate__` (`entropy_reward.py` lines 109-112). -/
def PebbleStateEntropyReward.getstate (r : PebbleStateEntropyReward) :
    PickledState :=
  { trained_reward_fn := r.trained_reward_fn
    nearest_neighbor_k := r.nearest_neighbor_k
    entropy_stats := r.entropy_stats
    state := r.state
    obs_shape := r.obs_shape }

/-- `__setstate__` (`entropy_reward.py` lines 114-116): restore every pickled
attribute and reset `replay_buffer_view` to None. -/
def PebbleStateEntropyReward.setstate (s : PickledState) :
    PebbleStateEntropyReward :=
  { trained_reward_fn := s.trained_reward_fn
    nearest_neighbor_k := s.nearest_neighbor_k
    entropy_stats := s.entropy_stats
    state := s.state
    replay_buffer_view := none
    obs_shape := s.obs_shape }

/-- The public operations of the class, used to state properties quantified
over every operation. -/
inductive PebbleOp where
  | startExp
  | finishExp
  | setBuffer (v : ReplayBufferView) (sh : List ℕ)
  | onBufferInit (w : ReplayBufferRewardWrapper)
  | callOp (state action next_state dones : NDArray)

/-- Run one public operation: the raised-or-returned value (rewards for
`__call__`, nothing for the others) together with the instance afterwards. -/
def PebbleStateEntropyReward.runOp (entFn : EntropyFn) (sqrtFn : ℚ → ℚ)
    (r : PebbleStateEntropyReward) :
    PebbleOp → Except PyError (Option (List ℚ)) × PebbleStateEntropyReward
  | .startExp =>
      let p := r.unsupervised_exploration_start
      (p.1.map (fun _ => none), p.2)
  | .finishExp =>
      let p := r.unsupervised_exploration_finish
      (p.1.map (fun _ => none), p.2)
  | .setBuffer v sh => (.ok none, r.set_replay_buffer v sh)
  | .onBufferInit w => (.ok none, r.on_replay_buffer_initialized w)
  | .callOp s a ns d =>
      let p := r.call entFn sqrtFn s a ns d
      (p.1.map some, p.2)

/-- A sequence of `set_replay_buffer` calls, applied left to right. -/
def PebbleStateEntropyReward.setBuffers (r : PebbleStateEntropyReward) :
    List (ReplayBufferView × List ℕ) → PebbleStateEntropyReward
  | [] => r
  | p :: ps => (r.set_replay_buffer p.1 p.2).setBuffers ps

/-- The instance after n successive `_entropy_reward` calls with the same
query. -/
def PebbleStateEntropyReward.iterEntropy (entFn : EntropyFn) (sqrtFn : ℚ → ℚ)
    (s : NDArray) : ℕ → PebbleStateEntropyReward → PebbleStateEntropyReward
  | 0, r => r
  | n + 1, r =>
      PebbleStateEntropyReward.iterEntropy entFn sqrtFn s n
        (r.entropy_reward entFn sqrtFn s).2

/-- Whether an Except value is a success. -/
def exceptIsOk {α : Type} : Except PyError α → Bool
  | .ok _ => true
  | .error _ => false

/-- Equality of raised-or-returned values is decidable. -/
instance : DecidableEq (Except PyError (List ℚ)) := fun a b =>
  match a, b with
  | .ok x, .ok y => decidable_of_iff (x = y) (by simp)
  | .error x, .error y => decidable_of_iff (x = y) (by simp)
  | .ok _, .error _ => isFalse (by simp)
  | .error _, .ok _ => isFalse (by simp)

/-- Concrete 1-element query array used in witnesses. -/
def arr0 : NDArray := { shape := [1], data := [0] }

/-- Concrete learned reward function used in witnesses. -/
def zeroRewardFn : RewardFn := fun _ _ _ _ => [0]

/-- Concrete entropy estimator used in witnesses: one constant entropy value
per call (the query batches used with it have one row). -/
def constEntropyFn : EntropyFn := fun _ _ _ => [2]

/-- Concrete stand-in for the numeric square root in witnesses (any fixed
positive-on-positives function exercises the statements). -/
def idSqrt : ℚ → ℚ := fun q => q

/-- Concrete buffer view used in witnesses. -/
def bufV : ReplayBufferView := { observations := { shape := [2, 1], data := [0, 1] } }

/-- Running statistics with one prior sample (mean 0, variance 0), used to
exhibit that a later identical batch changes the normalization. -/
def c7Stats : RunningNorm :=
  { running_mean := 0, running_var := 0, count := 1, eps := 1 / 100000 }

/-- Exploration-phase instance carrying the prior statistics `c7Stats` and a
bound replay buffer. -/
def c7Instance : PebbleStateEntropyReward :=
  { trained_reward_fn := zeroRewardFn
    nearest_neighbor_k := 5
    entropy_stats := c7Stats
    state := .UNSUPERVISED_EXPLORATION
    replay_buffer_view := some bufV
    obs_shape := some [1] }

/-- Fresh instance with a bound replay buffer (statistics still empty). -/
def freshBound : PebbleStateEntropyReward :=
  (PebbleStateEntropyReward.init zeroRewardFn 5).set_replay_buffer bufV [1]

/-! Helper lemmas shared by the claim theorems. -/

/-- The entropy path never touches the phase field. -/
theorem entropy_reward_state_eq (entFn : EntropyFn) (sqrtFn : ℚ → ℚ)
    (r : PebbleStateEntropyReward) (s : NDArray) :
    ((r.entropy_reward entFn sqrtFn s).2).state = r.state := by
  obtain ⟨fn, k, st, ph, v, sh⟩ := r
  cases v <;> cases sh <;> rfl

/-- The entropy path touches only the entropy_stats field. -/
theorem entropy_reward_frame (entFn : EntropyFn) (sqrtFn : ℚ → ℚ)
    (r : PebbleStateEntropyReward) (s : NDArray) :
    (r.entropy_reward entFn sqrtFn s).2 =
      { r with entropy_stats := ((r.entropy_reward entFn sqrtFn s).2).entropy_stats } := by
  obtain ⟨fn, k, st, ph, v, sh⟩ := r
  cases v <;> cases sh <;> rfl

/-- C1: for every instance and every call to the reward function, the result
is the entropy reward of the state exactly when the phase is
UNSUPERVISED_EXPLORATION, and in every other phase it is the learned reward
function applied to the four arguments (state, action, next_state, done),
forwarded unchanged. -/
theorem c1_call_routing (entFn : EntropyFn) (sqrtFn : ℚ → ℚ)
    (r : PebbleStateEntropyReward) (s a ns d : NDArray) :
    (r.state = .UNSUPERVISED_EXPLORATION →
      r.call entFn sqrtFn s a ns d = r.entropy_reward entFn sqrtFn s) ∧
    (r.state ≠ .UNSUPERVISED_EXPLORATION →
      r.call entFn sqrtFn s a ns d = (.ok (r.trained_reward_fn s a ns d), r)) := by
  constructor <;> intro h <;>
    simp [PebbleStateEntropyReward.call, h]

/-- Witness for C1: on a fresh instance (phase LEARNING_START) the call
forwards all four arguments to the learned reward function, and after
`unsupervised_exploration_start` it returns the entropy reward. -/
theorem c1_call_routing_witness :
    (PebbleStateEntropyReward.call constEntropyFn idSqrt
        (PebbleStateEntropyReward.init zeroRewardFn 5) arr0 arr0 arr0 arr0 =
      (.ok (zeroRewardFn arr0 arr0 arr0 arr0),
        PebbleStateEntropyReward.init zeroRewardFn 5)) ∧
    (PebbleStateEntropyReward.call constEntropyFn idSqrt c7Instance arr0 arr0 arr0 arr0 =
      PebbleStateEntropyReward.entropy_reward constEntropyFn idSqrt c7Instance arr0) :=
  ⟨(c1_call_routing constEntropyFn idSqrt
      (PebbleStateEntropyReward.init zeroRewardFn 5) arr0 arr0 arr0 arr0).2
      (by decide),
   (c1_call_routing constEntropyFn idSqrt c7Instance arr0 arr0 arr0 arr0).1
      (by decide)⟩

/-- C2: the phase machine is a strict linear sequence.  A fresh instance has
phase LEARNING_START; `unsupervised_exploration_start` raises an assertion
error unless the phase is LEARNING_START and on success moves to
UNSUPERVISED_EXPLORATION; `unsupervised_exploration_finish` raises an
assertion error unless the phase is UNSUPERVISED_EXPLORATION and on success
moves to POLICY_AND_REWARD_LEARNING; no public operation ever lowers the
phase, and no operation leaves POLICY_AND_REWARD_LEARNING. -/
theorem c2_phase_machine (entFn : EntropyFn) (sqrtFn : ℚ → ℚ) (fn : RewardFn)
    (k : ℤ) (r : PebbleStateEntropyReward) (op : PebbleOp) :
    (PebbleStateEntropyReward.init fn k).state = .LEARNING_START ∧
    (r.state = .LEARNING_START →
      r.unsupervised_exploration_start =
        (.ok (), { r with state := .UNSUPERVISED_EXPLORATION })) ∧
    (r.state ≠ .LEARNING_START →
      r.unsupervised_exploration_start = (.error .assertionError, r)) ∧
    (r.state = .UNSUPERVISED_EXPLORATION →
      r.unsupervised_exploration_finish =
        (.ok (), { r with state := .POLICY_AND_REWARD_LEARNING })) ∧
    (r.state ≠ .UNSUPERVISED_EXPLORATION →
      r.unsupervised_exploration_finish = (.error .assertionError, r)) ∧
    r.state.idx ≤ ((r.runOp entFn sqrtFn op).2).state.idx ∧
    (r.state = .POLICY_AND_REWARD_LEARNING →
      ((r.runOp entFn sqrtFn op).2).state = .POLICY_AND_REWARD_LEARNING) := by
  refine ⟨rfl, ?_, ?_, ?_, ?_, ?_, ?_⟩
  · intro h
    simp [PebbleStateEntropyReward.unsupervised_exploration_start, h]
  · intro h
    simp [PebbleStateEntropyReward.unsupervised_exploration_start, h]
  · intro h
    simp [PebbleStateEntropyReward.unsupervised_exploration_finish, h]
  · intro h
    simp [PebbleStateEntropyReward.unsupervised_exploration_finish, h]
  · cases op with
    | startExp =>
      by_cases h : r.state = .LEARNING_START <;>
        simp [PebbleStateEntropyReward.runOp,
          PebbleStateEntropyReward.unsupervised_exploration_start, h] <;>
        cases hs : r.state <;> simp_all [PebbleRewardPhase.idx]
    | finishExp =>
      by_cases h : r.state = .UNSUPERVISED_EXPLORATION <;>
        simp [PebbleStateEntropyReward.runOp,
          PebbleStateEntropyReward.unsupervised_exploration_finish, h] <;>
        cases hs : r.state <;> simp_all [PebbleRewardPhase.idx]
    | setBuffer v sh =>
      simp [PebbleStateEntropyReward.runOp,
        PebbleStateEntropyReward.set_replay_buffer]
    | onBufferInit w =>
      simp [PebbleStateEntropyReward.runOp,
        PebbleStateEntropyReward.on_replay_buffer_initialized,
        PebbleStateEntropyReward.set_replay_buffer]
    | callOp s a ns d =>
      by_cases h : r.state = .UNSUPERVISED_EXPLORATION <;>
        simp [PebbleStateEntropyReward.runOp, PebbleStateEntropyReward.call, h,
          entropy_reward_state_eq]
  · intro h
    cases op with
    | startExp =>
      simp [PebbleStateEntropyReward.runOp,
        PebbleStateEntropyReward.unsupervised_exploration_start, h]
    | finishExp =>
      simp [PebbleStateEntropyReward.runOp,
        PebbleStateEntropyReward.unsupervised_exploration_finish, h]
    | setBuffer v sh =>
      simpa [PebbleStateEntropyReward.runOp,
        PebbleStateEntropyReward.set_replay_buffer] using h
    | onBufferInit w =>
      simpa [PebbleStateEntropyReward.runOp,
        PebbleStateEntropyReward.on_replay_buffer_initialized,
        PebbleStateEntropyReward.set_replay_buffer] using h
    | callOp s a ns d =>
      simp [PebbleStateEntropyReward.runOp, PebbleStateEntropyReward.call, h,
        entropy_reward_state_eq]

/-- Witness for C2: on concrete instances, start succeeds from LEARNING_START
and moves to exploration, finish fails from LEARNING_START, and a start out of
order (from POLICY_AND_REWARD_LEARNING) fails. -/
theorem c2_phase_machine_witness :
    ((PebbleStateEntropyReward.init zeroRewardFn 5).unsupervised_exploration_start =
      (.ok (), { PebbleStateEntropyReward.init zeroRewardFn 5 with
                  state := .UNSUPERVISED_EXPLORATION })) ∧
    ((PebbleStateEntropyReward.init zeroRewardFn 5).unsupervised_exploration_finish =
      (.error .assertionError, PebbleStateEntropyReward.init zeroRewardFn 5)) ∧
    (({ c7Instance with state := .POLICY_AND_REWARD_LEARNING }).unsupervised_exploration_start =
      (.error .assertionError, { c7Instance with state := .POLICY_AND_REWARD_LEARNING })) :=
  ⟨(c2_phase_machine constEntropyFn idSqrt zeroRewardFn 5
      (PebbleStateEntropyReward.init zeroRewardFn 5) PebbleOp.startExp).2.1
      (by decide),
   (c2_phase_machine constEntropyFn idSqrt zeroRewardFn 5
      (PebbleStateEntropyReward.init zeroRewardFn 5) PebbleOp.startExp).2.2.2.2.1
      (by decide),
   (c2_phase_machine constEntropyFn idSqrt zeroRewardFn 5
      ({ c7Instance with state := .POLICY_AND_REWARD_LEARNING }) PebbleOp.startExp).2.2.1
      (by decide)⟩

/-- C3: `_entropy_reward` raises the descriptive ValueError (a distinct usage
error, not an assertion failure) exactly when no replay buffer view has been
set; when it raises, the instance is returned unchanged (no phase, k or
statistics mutation) and no default reward is silently produced. -/
theorem c3_missing_buffer_usage_error (entFn : EntropyFn) (sqrtFn : ℚ → ℚ)
    (r : PebbleStateEntropyReward) (s : NDArray) :
    ((r.entropy_reward entFn sqrtFn s).1 =
        .error (.valueError
          "Replay buffer must be supplied before entropy reward can be used") ↔
      r.replay_buffer_view = none) ∧
    (r.replay_buffer_view = none → (r.entropy_reward entFn sqrtFn s).2 = r) := by
  obtain ⟨fn, k, st, ph, v, sh⟩ := r
  cases v with
  | none => exact ⟨by simp [PebbleStateEntropyReward.entropy_reward], fun _ => rfl⟩
  | some v0 =>
    cases sh with
    | none =>
      refine ⟨⟨fun h => ?_, fun h => by simp at h⟩, fun h => by simp at h⟩
      simp [PebbleStateEntropyReward.entropy_reward] at h
    | some sh0 =>
      refine ⟨⟨fun h => ?_, fun h => by simp at h⟩, fun h => by simp at h⟩
      simp [PebbleStateEntropyReward.entropy_reward] at h

/-- Witness for C3: a fresh instance has no replay buffer view, so the
entropy reward raises the usage error and leaves the instance unchanged. -/
theorem c3_missing_buffer_usage_error_witness :
    ((PebbleStateEntropyReward.init zeroRewardFn 5).entropy_reward
        constEntropyFn idSqrt arr0).2 = PebbleStateEntropyReward.init zeroRewardFn 5 :=
  (c3_missing_buffer_usage_error constEntropyFn idSqrt
    (PebbleStateEntropyReward.init zeroRewardFn 5) arr0).2 rfl

/-- C4: serializing then deserializing any instance yields an instance equal
to the original in every field except the replay buffer view, which is reset
to none; on the restored instance `_entropy_reward` raises the usage error,
and after `set_replay_buffer` is called again it succeeds. -/
theorem c4_pickle_roundtrip (entFn : EntropyFn) (sqrtFn : ℚ → ℚ)
    (r : PebbleStateEntropyReward) (s : NDArray) (v : ReplayBufferView)
    (sh : List ℕ) :
    PebbleStateEntropyReward.setstate r.getstate =
      { r with replay_buffer_view := none } ∧
    ((PebbleStateEntropyReward.setstate r.getstate).entropy_reward
        entFn sqrtFn s).1 =
      .error (.valueError
        "Replay buffer must be supplied before entropy reward can be used") ∧
    ∃ out,
      (((PebbleStateEntropyReward.setstate r.getstate).set_replay_buffer v sh).entropy_reward
          entFn sqrtFn s).1 = .ok out := by
  refine ⟨rfl, rfl, ?_⟩
  exact ⟨_, rfl⟩

/-- C5: with a replay buffer view and observation shape set, `_entropy_reward`
is exactly the pipeline of the source: reshape the buffer's observations to
(-1, *obs_shape), invoke the entropy estimator once on (state, reshaped set,
nearest_neighbor_k), pass the per-row entropies through the running-norm
forward pass — which normalizes with the updated statistics AND stores them
back into `entropy_stats` (a mutating call) — and return the normalized
values; when the estimator honors its one-value-per-query-row contract the
reward batch has the same leading dimension as `state`. -/
theorem c5_entropy_pipeline (entFn : EntropyFn) (sqrtFn : ℚ → ℚ)
    (r : PebbleStateEntropyReward) (s : NDArray) (v : ReplayBufferView)
    (sh : List ℕ) (hv : r.replay_buffer_view = some v)
    (hsh : r.obs_shape = some sh)
    (hlen : (entFn s (v.observations.reshapeRows sh) r.nearest_neighbor_k).length
              = s.shape.headD 0) :
    r.entropy_reward entFn sqrtFn s =
      (.ok (RunningNorm.normalize sqrtFn
          (r.entropy_stats.update
            (entFn s (v.observations.reshapeRows sh) r.nearest_neighbor_k))
          (entFn s (v.observations.reshapeRows sh) r.nearest_neighbor_k)),
        { r with entropy_stats := (r.entropy_stats.update
            (entFn s (v.observations.reshapeRows sh) r.nearest_neighbor_k)) }) ∧
    ∀ out r2, r.entropy_reward entFn sqrtFn s = (.ok out, r2) →
      out.length = s.shape.headD 0 := by
  have hmain : r.entropy_reward entFn sqrtFn s =
      (.ok (RunningNorm.normalize sqrtFn
          (r.entropy_stats.update
            (entFn s (v.observations.reshapeRows sh) r.nearest_neighbor_k))
          (entFn s (v.observations.reshapeRows sh) r.nearest_neighbor_k)),
        { r with entropy_stats := (r.entropy_stats.update
            (entFn s (v.observations.reshapeRows sh) r.nearest_neighbor_k)) }) := by
    obtain ⟨fn, k, st, ph, rv, rsh⟩ := r
    simp only [PebbleStateEntropyReward.replay_buffer_view] at hv
    simp only [PebbleStateEntropyReward.obs_shape] at hsh
    subst hv
    subst hsh
    rfl
  refine ⟨hmain, fun out r2 hout => ?_⟩
  rw [hmain] at hout
  have hout1 : out = RunningNorm.normalize sqrtFn
      (r.entropy_stats.update
        (entFn s (v.observations.reshapeRows sh) r.nearest_neighbor_k))
      (entFn s (v.observations.reshapeRows sh) r.nearest_neighbor_k) := by
    have := congrArg Prod.fst hout
    simpa using this.symm
  rw [hout1, RunningNorm.normalize, List.length_map, hlen]

/-- Witness for C5 on a concrete bound instance with a one-row query. -/
theorem c5_entropy_pipeline_witness :
    freshBound.entropy_reward constEntropyFn idSqrt arr0 =
      (.ok (RunningNorm.normalize idSqrt
          (freshBound.entropy_stats.update
            (constEntropyFn arr0 (bufV.observations.reshapeRows [1])
              freshBound.nearest_neighbor_k))
          (constEntropyFn arr0 (bufV.observations.reshapeRows [1])
            freshBound.nearest_neighbor_k)),
        { freshBound with entropy_stats := (freshBound.entropy_stats.update
            (constEntropyFn arr0 (bufV.observations.reshapeRows [1])
              freshBound.nearest_neighbor_k)) }) :=
  (c5_entropy_pipeline constEntropyFn idSqrt freshBound arr0 bufV [1]
    rfl rfl (by decide)).1

/-- C6: two replay buffer views whose raw observations hold the same elements
in the same order produce identical entropy rewards and identical updated
statistics for the same instance and query: the reshape to (-1, *obs_shape)
erases any leading batching factorization of the stored shape. -/
theorem c6_reshape_invariance (entFn : EntropyFn) (sqrtFn : ℚ → ℚ)
    (r : PebbleStateEntropyReward) (v1 v2 : ReplayBufferView) (s : NDArray)
    (hdata : v1.observations.data = v2.observations.data) :
    (({ r with replay_buffer_view := some v1 }).entropy_reward entFn sqrtFn s).1 =
      (({ r with replay_buffer_view := some v2 }).entropy_reward entFn sqrtFn s).1 ∧
    ((({ r with replay_buffer_view := some v1 }).entropy_reward entFn sqrtFn s).2).entropy_stats =
      ((({ r with replay_buffer_view := some v2 }).entropy_reward entFn sqrtFn s).2).entropy_stats := by
  have hresh : ∀ sh : List ℕ, v1.observations.reshapeRows sh =
      v2.observations.reshapeRows sh := by
    intro sh
    simp [NDArray.reshapeRows, hdata]
  cases hsh : r.obs_shape with
  | none =>
    simp [PebbleStateEntropyReward.entropy_reward, hsh]
  | some sh0 =>
    simp [PebbleStateEntropyReward.entropy_reward, hsh, hresh sh0]

/-- Witness for C6: observations stored as shape (4,) versus (2, 2) with the
same flat data give the same reward and the same updated statistics. -/
theorem c6_reshape_invariance_witness :
    ((({ c7Instance with replay_buffer_view := (some
          { observations := { shape := [4], data := [0, 1, 2, 3] } }) }).entropy_reward
        constEntropyFn idSqrt arr0).1 =
      (({ c7Instance with replay_buffer_view := (some
          { observations := { shape := [2, 2], data := [0, 1, 2, 3] } }) }).entropy_reward
        constEntropyFn idSqrt arr0).1) :=
  (c6_reshape_invariance constEntropyFn idSqrt c7Instance
    { observations := { shape := [4], data := [0, 1, 2, 3] } }
    { observations := { shape := [2, 2], data := [0, 1, 2, 3] } }
    arr0 rfl).1

/-- Helper for C8: a sequence of `set_replay_buffer` calls never touches the
learned reward function, k, statistics or phase. -/
theorem setBuffers_frame (r : PebbleStateEntropyReward)
    (ps : List (ReplayBufferView × List ℕ)) :
    (r.setBuffers ps).trained_reward_fn = r.trained_reward_fn ∧
    (r.setBuffers ps).nearest_neighbor_k = r.nearest_neighbor_k ∧
    (r.setBuffers ps).entropy_stats = r.entropy_stats ∧
    (r.setBuffers ps).state = r.state := by
  induction ps generalizing r with
  | nil => exact ⟨rfl, rfl, rfl, rfl⟩
  | cons p ps ih =>
    simpa [PebbleStateEntropyReward.setBuffers,
      PebbleStateEntropyReward.set_replay_buffer] using
      ih (r.set_replay_buffer p.1 p.2)

/-- C8: `set_replay_buffer` stores both of its arguments and the most recent
call wins: after any sequence of calls ending in (v, sh) the stored view and
shape are exactly v and sh (all other fields untouched), and
`on_replay_buffer_initialized` is exactly `set_replay_buffer` applied to the
wrapper's buffer view and observation shape. -/
theorem c8_set_replay_buffer_last_wins (r : PebbleStateEntropyReward)
    (ps : List (ReplayBufferView × List ℕ)) (v : ReplayBufferView)
    (sh : List ℕ) (w : ReplayBufferRewardWrapper) :
    (r.set_replay_buffer v sh).replay_buffer_view = some v ∧
    (r.set_replay_buffer v sh).obs_shape = some sh ∧
    (r.setBuffers (ps ++ [(v, sh)])).replay_buffer_view = some v ∧
    (r.setBuffers (ps ++ [(v, sh)])).obs_shape = some sh ∧
    (r.setBuffers (ps ++ [(v, sh)])).trained_reward_fn = r.trained_reward_fn ∧
    (r.setBuffers (ps ++ [(v, sh)])).nearest_neighbor_k = r.nearest_neighbor_k ∧
    (r.setBuffers (ps ++ [(v, sh)])).entropy_stats = r.entropy_stats ∧
    (r.setBuffers (ps ++ [(v, sh)])).state = r.state ∧
    r.on_replay_buffer_initialized w = r.set_replay_buffer w.buffer_view w.obs_shape := by
  have hlast : ∀ (r0 : PebbleStateEntropyReward),
      (r0.setBuffers (ps ++ [(v, sh)])).replay_buffer_view = some v ∧
      (r0.setBuffers (ps ++ [(v, sh)])).obs_shape = some sh := by
    induction ps with
    | nil =>
      intro r0
      exact ⟨rfl, rfl⟩
    | cons p ps ih =>
      intro r0
      simpa [PebbleStateEntropyReward.setBuffers] using
        ih (r0.set_replay_buffer p.1 p.2)
  obtain ⟨h1, h2, h3, h4⟩ := setBuffers_frame r (ps ++ [(v, sh)])
  exact ⟨rfl, rfl, (hlast r).1, (hlast r).2, h1, h2, h3, h4, rfl⟩

/-- C9: `__getstate__` removes exactly the `replay_buffer_view` entry, so the
observation shape is serialized and survives the round trip: the restored
instance equals the original with only the buffer view reset to none, and in
particular keeps the pre-save `obs_shape`. -/
theorem c9_only_buffer_view_excluded (r : PebbleStateEntropyReward) :
    r.getstate.obs_shape = r.obs_shape ∧
    r.getstate.nearest_neighbor_k = r.nearest_neighbor_k ∧
    r.getstate.entropy_stats = r.entropy_stats ∧
    r.getstate.state = r.state ∧
    PebbleStateEntropyReward.setstate r.getstate =
      { r with replay_buffer_view := none } :=
  ⟨rfl, rfl, rfl, rfl, rfl⟩

/-- C10: the constructor performs no validation of `nearest_neighbor_k`: it
stores any integer k unchanged (5 being the default when omitted), and no
public operation's success or failure depends on k — replacing k by any other
integer (zero or negative included) leaves each operation's raised-error
status identical. -/
theorem c10_no_k_validation (entFn : EntropyFn) (sqrtFn : ℚ → ℚ)
    (fn : RewardFn) (k k2 : ℤ) (r : PebbleStateEntropyReward) (op : PebbleOp) :
    (PebbleStateEntropyReward.init fn k).nearest_neighbor_k = k ∧
    PebbleStateEntropyReward.initDefault fn = PebbleStateEntropyReward.init fn 5 ∧
    exceptIsOk (({ r with nearest_neighbor_k := k2 }).runOp entFn sqrtFn op).1 =
      exceptIsOk ((r.runOp entFn sqrtFn op).1) := by
  obtain ⟨f0, k0, st, ph, rv, rsh⟩ := r
  refine ⟨rfl, rfl, ?_⟩
  cases op with
  | startExp => cases ph <;> rfl
  | finishExp => cases ph <;> rfl
  | setBuffer v sh => rfl
  | onBufferInit w => rfl
  | callOp s a ns d => cases ph <;> cases rv <;> cases rsh <;> rfl

/-- Normalization depends only on the running mean, variance and epsilon. -/
theorem RunningNorm.normalize_congr (sqrtFn : ℚ → ℚ) (t1 t2 : RunningNorm)
    (e : List ℚ) (hm : t1.running_mean = t2.running_mean)
    (hv : t1.running_var = t2.running_var) (he : t1.eps = t2.eps) :
    RunningNorm.normalize sqrtFn t1 e = RunningNorm.normalize sqrtFn t2 e := by
  simp [RunningNorm.normalize, hm, hv, he]

/-- Updating empty statistics with a nonempty batch yields exactly the batch
statistics (whatever the initial mean and variance placeholders were). -/
theorem RunningNorm.update_of_count_zero (s : RunningNorm) (e : List ℚ)
    (h0 : s.count = 0) (hne : e.length ≠ 0) :
    (s.update e).running_mean = listMean e ∧
    (s.update e).running_var = listVar e ∧
    (s.update e).eps = s.eps := by
  have hb : ((e.length : ℚ)) ≠ 0 := by exact_mod_cast hne
  refine ⟨?_, ?_, ?_⟩
  · simp only [RunningNorm.update, if_neg hne, h0, Nat.cast_zero]
    field_simp
  · simp only [RunningNorm.update, if_neg hne, h0, Nat.cast_zero]
    field_simp
  · simp only [RunningNorm.update, if_neg hne]

/-- Updating statistics that already carry the batch mean and variance leaves
the mean, variance and epsilon unchanged (only the count grows). -/
theorem RunningNorm.update_stable (s : RunningNorm) (e : List ℚ)
    (hm : s.running_mean = listMean e) (hv : s.running_var = listVar e) :
    (s.update e).running_mean = listMean e ∧
    (s.update e).running_var = listVar e ∧
    (s.update e).eps = s.eps := by
  by_cases hne : e.length = 0
  · simp [RunningNorm.update, hne, hm, hv]
  · have hbpos : (0 : ℚ) < (e.length : ℚ) := by
      exact_mod_cast Nat.pos_of_ne_zero hne
    have hcnn : (0 : ℚ) ≤ ((s.count : ℚ)) := Nat.cast_nonneg _
    have htot : ((s.count : ℚ)) + (e.length : ℚ) ≠ 0 := by linarith
    refine ⟨?_, ?_, ?_⟩
    · simp only [RunningNorm.update, if_neg hne, hm]
      field_simp
    · simp only [RunningNorm.update, if_neg hne, hm, hv]
      field_simp
      ring
    · simp only [RunningNorm.update, if_neg hne]

/-- Iterating the update with an empty batch changes nothing. -/
theorem RunningNorm.iterUpdate_empty (s : RunningNorm) (e : List ℚ)
    (hne : e.length = 0) (n : ℕ) :
    RunningNorm.iterUpdate e n s = s := by
  induction n generalizing s with
  | zero => rfl
  | succ n ih =>
    have hup : s.update e = s := by simp [RunningNorm.update, hne]
    simp [RunningNorm.iterUpdate, hup, ih]

/-- The n+1-st iterated update is an update of the n-th. -/
theorem RunningNorm.iterUpdate_succ (e : List ℚ) (n : ℕ) (s : RunningNorm) :
    RunningNorm.iterUpdate e (n + 1) s =
      (RunningNorm.iterUpdate e n s).update e := by
  induction n generalizing s with
  | zero => rfl
  | succ m ihm =>
    exact ihm (s.update e)

/-- After at least one update of initially empty statistics with a fixed
nonempty batch, the mean, variance and epsilon stay at the batch statistics
forever. -/
theorem RunningNorm.iterUpdate_inv (s : RunningNorm) (e : List ℚ)
    (h0 : s.count = 0) (hne : e.length ≠ 0) (n : ℕ) :
    (RunningNorm.iterUpdate e (n + 1) s).running_mean = listMean e ∧
    (RunningNorm.iterUpdate e (n + 1) s).running_var = listVar e ∧
    (RunningNorm.iterUpdate e (n + 1) s).eps = s.eps := by
  induction n with
  | zero =>
    simpa [RunningNorm.iterUpdate] using
      RunningNorm.update_of_count_zero s e h0 hne
  | succ n ih =>
    obtain ⟨hm, hv, he⟩ := ih
    rw [RunningNorm.iterUpdate_succ e (n + 1) s]
    obtain ⟨hm2, hv2, he2⟩ :=
      RunningNorm.update_stable (RunningNorm.iterUpdate e (n + 1) s) e hm hv
    exact ⟨hm2, hv2, by rw [he2, he]⟩

/-- Closed form of the entropy path when the buffer view and shape are set. -/
theorem entropy_reward_some_eq (entFn : EntropyFn) (sqrtFn : ℚ → ℚ)
    (r : PebbleStateEntropyReward) (s : NDArray) (v : ReplayBufferView)
    (sh : List ℕ) (hv : r.replay_buffer_view = some v)
    (hsh : r.obs_shape = some sh) :
    r.entropy_reward entFn sqrtFn s =
      (.ok (RunningNorm.normalize sqrtFn
          (r.entropy_stats.update
            (entFn s (v.observations.reshapeRows sh) r.nearest_neighbor_k))
          (entFn s (v.observations.reshapeRows sh) r.nearest_neighbor_k)),
        { r with entropy_stats := (r.entropy_stats.update
            (entFn s (v.observations.reshapeRows sh) r.nearest_neighbor_k)) }) := by
  obtain ⟨f0, k0, st, ph, rv, rsh⟩ := r
  simp only [PebbleStateEntropyReward.replay_buffer_view] at hv
  simp only [PebbleStateEntropyReward.obs_shape] at hsh
  subst hv
  subst hsh
  rfl

/-- When the buffer view or the shape is missing, the entropy path raises and
the instance is a fixed point. -/
theorem entropy_reward_err_fix (entFn : EntropyFn) (sqrtFn : ℚ → ℚ)
    (r : PebbleStateEntropyReward) (s : NDArray)
    (h : r.replay_buffer_view = none ∨ r.obs_shape = none) :
    (r.entropy_reward entFn sqrtFn s).2 = r := by
  obtain ⟨f0, k0, st, ph, rv, rsh⟩ := r
  cases rv <;> cases rsh <;>
    simp_all [PebbleStateEntropyReward.entropy_reward]

/-- Closed form of n repeated entropy calls: only the statistics move, by n
iterated updates with the (fixed) entropy batch. -/
theorem iterEntropy_closed (entFn : EntropyFn) (sqrtFn : ℚ → ℚ) (s : NDArray)
    (n : ℕ) (r : PebbleStateEntropyReward) (v : ReplayBufferView)
    (sh : List ℕ) (hv : r.replay_buffer_view = some v)
    (hsh : r.obs_shape = some sh) :
    PebbleStateEntropyReward.iterEntropy entFn sqrtFn s n r =
      { r with entropy_stats := (RunningNorm.iterUpdate
          (entFn s (v.observations.reshapeRows sh) r.nearest_neighbor_k)
          n r.entropy_stats) } := by
  induction n generalizing r with
  | zero => rfl
  | succ n ih =>
    show PebbleStateEntropyReward.iterEntropy entFn sqrtFn s n
        (r.entropy_reward entFn sqrtFn s).2 = _
    rw [entropy_reward_some_eq entFn sqrtFn r s v sh hv hsh]
    exact ih _ hv hsh

/-- C7 amended: the entropy reward has no hidden randomness — it is a pure
function of the instance and the query — and on an instance whose running
statistics are still empty (count = 0, as after construction) repeated
`_entropy_reward` calls with the same query against an unchanged historical
set return the same output values on every call; with nonempty prior
statistics, successive outputs may differ, because the forward pass updates
the running statistics between calls. -/
theorem c7_repeat_reproducible_fresh (entFn : EntropyFn) (sqrtFn : ℚ → ℚ)
    (r : PebbleStateEntropyReward) (s : NDArray)
    (hcount : r.entropy_stats.count = 0) (n : ℕ) :
    ((PebbleStateEntropyReward.iterEntropy entFn sqrtFn s n r).entropy_reward
        entFn sqrtFn s).1 = (r.entropy_reward entFn sqrtFn s).1 := by
  cases hv : r.replay_buffer_view with
  | none =>
    have hfix : (r.entropy_reward entFn sqrtFn s).2 = r :=
      entropy_reward_err_fix entFn sqrtFn r s (Or.inl hv)
    have hiter : ∀ m, PebbleStateEntropyReward.iterEntropy entFn sqrtFn s m r = r := by
      intro m
      induction m with
      | zero => rfl
      | succ m ih =>
        show PebbleStateEntropyReward.iterEntropy entFn sqrtFn s m
            (r.entropy_reward entFn sqrtFn s).2 = r
        rw [hfix]
        exact ih
    rw [hiter n]
  | some v =>
    cases hsh : r.obs_shape with
    | none =>
      have hfix : (r.entropy_reward entFn sqrtFn s).2 = r :=
        entropy_reward_err_fix entFn sqrtFn r s (Or.inr hsh)
      have hiter : ∀ m, PebbleStateEntropyReward.iterEntropy entFn sqrtFn s m r = r := by
        intro m
        induction m with
        | zero => rfl
        | succ m ih =>
          show PebbleStateEntropyReward.iterEntropy entFn sqrtFn s m
              (r.entropy_reward entFn sqrtFn s).2 = r
          rw [hfix]
          exact ih
      rw [hiter n]
    | some sh =>
      cases n with
      | zero => rfl
      | succ n =>
        rw [iterEntropy_closed entFn sqrtFn s (n + 1) r v sh hv hsh]
        rw [entropy_reward_some_eq entFn sqrtFn
          { r with entropy_stats := (RunningNorm.iterUpdate
              (entFn s (v.observations.reshapeRows sh) r.nearest_neighbor_k)
              (n + 1) r.entropy_stats) } s v sh hv hsh]
        rw [entropy_reward_some_eq entFn sqrtFn r s v sh hv hsh]
        by_cases hne : (entFn s (v.observations.reshapeRows sh)
            r.nearest_neighbor_k).length = 0
        · rw [RunningNorm.iterUpdate_empty r.entropy_stats _ hne (n + 1)]
        · obtain ⟨hm1, hv1, he1⟩ := RunningNorm.iterUpdate_inv r.entropy_stats
            (entFn s (v.observations.reshapeRows sh) r.nearest_neighbor_k)
            hcount hne (n + 1)
          rw [← RunningNorm.iterUpdate_succ] at *
          obtain ⟨hm0, hv0, he0⟩ := RunningNorm.update_of_count_zero
            r.entropy_stats
            (entFn s (v.observations.reshapeRows sh) r.nearest_neighbor_k)
            hcount hne
          obtain ⟨hm2, hv2, he2⟩ := RunningNorm.iterUpdate_inv r.entropy_stats
            (entFn s (v.observations.reshapeRows sh) r.nearest_neighbor_k)
            hcount hne (n + 1)
          exact congrArg Except.ok (RunningNorm.normalize_congr sqrtFn _ _ _
            (by rw [hm2, hm0]) (by rw [hv2, hv0]) (by rw [he2, he0]))

/-- Witness for the amended C7: on a fresh bound instance, the fourth call
returns the same output as the first. -/
theorem c7_repeat_reproducible_fresh_witness :
    ((PebbleStateEntropyReward.iterEntropy constEntropyFn idSqrt arr0 3
        freshBound).entropy_reward constEntropyFn idSqrt arr0).1 =
      (freshBound.entropy_reward constEntropyFn idSqrt arr0).1 :=
  c7_repeat_reproducible_fresh constEntropyFn idSqrt freshBound arr0 (by decide) 3

/-- C7 counterexample: on an instance whose running statistics already hold a
prior sample (mean 0, variance 0, count 1), two successive `_entropy_reward`
calls with an identical query against an unchanged historical set return
different outputs — the claim's "same output values on every call" fails for
instances with accumulated statistics, because the forward pass updates the
statistics between the calls. -/
theorem c7_counterexample :
    (PebbleStateEntropyReward.entropy_reward constEntropyFn idSqrt
        (PebbleStateEntropyReward.entropy_reward constEntropyFn idSqrt
          c7Instance arr0).2 arr0).1 ≠
      (PebbleStateEntropyReward.entropy_reward constEntropyFn idSqrt
        c7Instance arr0).1 := by
  norm_num [PebbleStateEntropyReward.entropy_reward, RunningNorm.forward,
    RunningNorm.update, RunningNorm.normalize, listMean, listVar,
    constEntropyFn, idSqrt, c7Instance, c7Stats, bufV, NDArray.reshapeRows,
    arr0]
